import Mathlib

/-!
Verification of the Cursive billing / quota / rate-limiting core against its
natural-language specification.

Shallow embedding of the Python sources:
  - `src/models.py`   : `User`, `Billing`, `APIUsage` records,
  - `src/billing.py`  : `calculate_cost`, `track_usage`, `handle_checkout_completed`,
  - `src/rate_limiter.py` : `check_usage_quota`, `exempt_from_rate_limit`,
  - `src/proxy.py`    : the streaming generator of `handle_claude_stream_request`
                        and the `limiter.limit` decoration of the AI endpoints.

Database tables are embedded as Lean lists; a SQLAlchemy session's
pending-until-commit behaviour is embedded by building the new state
functionally and returning the *old* state whenever an exception-and-rollback
path is taken.  `Decimal` arithmetic is embedded as exact rational arithmetic
(exact for all inputs within the default 28-digit context), and Python's
`round(d, 6)` on a `Decimal` as round-half-to-even at 6 fractional digits.
Environment-derived configuration is embedded at its default value, as in the
source (`ANTHROPIC_INPUT_PRICE = 0.003`, `ANTHROPIC_OUTPUT_PRICE = 0.015`,
`MARKUP_PERCENTAGE = 15`, `FREE_TIER_TOKENS_PER_MONTH = 10000`,
`PRO_TIER_INCLUDED_TOKENS = 50000`, `RATE_LIMIT_PER_MINUTE = 50`).
Fernet decryption of the stored credential is external to the repository; it
is embedded as the identity on the stored optional string, so
`get_api_key` returns the stored credential when one is present.
-/

namespace Cursive

/-- From `src/models.py` (`class User`): the fields the claims read.
`encrypted_api_key` is the optional private upstream credential;
`subscription_tier` is one of `free`, `pro`, `enterprise`. -/
structure User where
  id : Nat
  encrypted_api_key : Option String
  subscription_tier : String

/-- From `src/models.py` (`class Billing`): one-to-one billing record.
Timestamps are embedded as `Nat`. -/
structure Billing where
  user_id : Nat
  stripe_customer_id : Option String
  stripe_subscription_id : Option String
  subscription_status : String
  current_period_start : Option Nat
  current_period_end : Option Nat
  tokens_used_this_period : Nat
  updated_at : Nat

/-- From `src/models.py` (`class APIUsage`): one immutable usage event. -/
structure APIUsage where
  user_id : Nat
  tokens_used : Nat
  tokens_input : Nat
  tokens_output : Nat
  cost : ℚ
  model : String
  endpoint : String

/-- The database: the three tables the claims touch. -/
structure DBState where
  users : List User
  billings : List Billing
  usage_rows : List APIUsage

/-- `Model.query.filter_by(user_id=uid).first()`: first row whose key matches. -/
def findByUid {α : Type} (key : α → Nat) (uid : Nat) : List α → Option α
  | [] => none
  | x :: rest => if key x = uid then some x else findByUid key uid rest

/-- Mutating the row returned by `.first()`: update the first matching row. -/
def updateByUid {α : Type} (key : α → Nat) (uid : Nat) (f : α → α) : List α → List α
  | [] => []
  | x :: rest => if key x = uid then f x :: rest else x :: updateByUid key uid f rest

/-- From `src/models.py` (`User.get_api_key`): returns the stored credential
when present, `None` otherwise (decryption embedded as the identity). -/
def get_api_key (u : User) : Option String :=
  u.encrypted_api_key

/-- Round-half-to-even to the nearest integer: the rounding Python's
`round` applies to a `Decimal` (context rounding `ROUND_HALF_EVEN`). -/
def roundHalfEven (q : ℚ) : ℤ :=
  let f : ℤ := ⌊q⌋
  let r : ℚ := q - (f : ℚ)
  if r < 1 / 2 then f
  else if 1 / 2 < r then f + 1
  else if f % 2 = 0 then f else f + 1

/-- Rounding an integer-valued rational changes nothing. -/
theorem roundHalfEven_intCast (n : ℤ) : roundHalfEven (n : ℚ) = n := by
  unfold roundHalfEven
  simp only [Int.floor_intCast, sub_self]
  norm_num

/-- `round(d, 6)` on a `Decimal`: round-half-to-even at 6 fractional digits. -/
def round6 (q : ℚ) : ℚ :=
  ((roundHalfEven (q * 1000000) : ℚ)) / 1000000

/-- From `src/billing.py` (`calculate_cost`): per-1K pricing at the env
defaults 0.003 / 0.015, 15 percent markup, rounded to 6 fractional digits.
The `model` argument is accepted but unused, as in the source. -/
def calculate_cost (tokens_input tokens_output : Nat) (model : String) : ℚ :=
  let input_price : ℚ := 3 / 1000
  let output_price : ℚ := 15 / 1000
  let markup : ℚ := 15 / 100
  let input_cost : ℚ := ((tokens_input : ℚ) / 1000) * input_price
  let output_cost : ℚ := ((tokens_output : ℚ) / 1000) * output_price
  let base_cost : ℚ := input_cost + output_cost
  let total_cost : ℚ := base_cost * (1 + markup)
  round6 total_cost

/-- Modelled from the spec: `cost(inputTokens, outputTokens, model)` computes
`inputTokens/1000 * inputPricePerK + outputTokens/1000 * outputPricePerK`,
multiplies by `(1 + markupFraction)`, then rounds to 6 fractional digits;
stated here at the same configuration values the code reads from the
environment defaults. -/
def costSpec (inputTokens outputTokens : Nat) : ℚ :=
  round6 (((inputTokens : ℚ) / 1000 * (3 / 1000)
    + (outputTokens : ℚ) / 1000 * (15 / 1000)) * (1 + 15 / 100))

/-- Claim C4: for all non-negative integer token counts, `calculate_cost`
equals the spec formula (base cost times one-plus-markup, rounded to six
fractional digits), and at tokens (1000, 1000), input price 0.003/1K, output
price 0.015/1K, markup 15 percent, the cost is exactly 0.020700. -/
theorem c4_cost_formula :
    (∀ (ti tout : Nat) (m : String), calculate_cost ti tout m = costSpec ti tout) ∧
    calculate_cost 1000 1000 "claude-3-5-sonnet-20241022" = 207 / 10000 := by
  constructor
  · intro ti tout m
    rfl
  · show round6 _ = _
    unfold round6
    rw [show (((1000 : Nat) : ℚ) / 1000 * (3 / 1000)
        + ((1000 : Nat) : ℚ) / 1000 * (15 / 1000)) * (1 + 15 / 100) * 1000000
        = ((20700 : ℤ) : ℚ) by norm_num]
    rw [roundHalfEven_intCast]
    norm_num

/-- Split a (reversed) string into groups of three characters, for Python's
thousands-separator format directive. -/
def chunk3 : List Char → List (List Char)
  | [] => []
  | [a] => [[a]]
  | [a, b] => [[a, b]]
  | a :: b :: c :: rest => [a, b, c] :: chunk3 rest

/-- Python's format directive placing a comma every three digits,
as in the f-string of `check_usage_quota`. -/
def commaFormat (n : Nat) : String :=
  String.mk ((List.intersperse [','] (chunk3 (toString n).toList.reverse)).flatten.reverse)

/-- The denial message built by `check_usage_quota` (src/rate_limiter.py,
lines 138-141), naming the ceiling with thousands separators. -/
def quotaMessage (quota : Nat) : String :=
  "You have exceeded your monthly token quota of " ++ commaFormat quota ++
    ". Please upgrade your plan or add your own API key."

/-- The ceiling comparison of `check_usage_quota` (src/rate_limiter.py,
lines 136-143): denied when `tokens_used_this_period >= quota`. -/
def quotaCheck (billing : Billing) (quota : Nat) : Bool × Option String :=
  if quota ≤ billing.tokens_used_this_period then (false, some (quotaMessage quota))
  else (true, none)

/-- From `src/rate_limiter.py` (`check_usage_quota`): private-credential
holders pass unconditionally; then the billing row is looked up (missing row
is denied with an internal-error message); then the tier picks the ceiling,
with `enterprise` unmetered.  Ceilings at the environment defaults
(free 10000, pro 50000). -/
def check_usage_quota (user : User) (billings : List Billing) : Bool × Option String :=
  if (get_api_key user).isSome then (true, none)
  else
    match findByUid Billing.user_id user.id billings with
    | none => (false, some "Billing information not found")
    | some billing =>
      let free_tier_limit : Nat := 10000
      let pro_tier_limit : Nat := 50000
      if user.subscription_tier = "free" then quotaCheck billing free_tier_limit
      else if user.subscription_tier = "pro" then quotaCheck billing pro_tier_limit
      else if user.subscription_tier = "enterprise" then (true, none)
      else quotaCheck billing free_tier_limit

/-- Claim C2: for a free-tier account with no private credential and a
billing row, the gate denies exactly when `tokens_used_this_period >= 10000`,
with the message naming the ceiling; 9999 is allowed, 10000 is denied; and a
private-credential account is allowed regardless of usage (e.g. at 1000000). -/
theorem c2_quota_gate :
    (∀ (u : User) (bs : List Billing) (b : Billing),
      u.encrypted_api_key = none → u.subscription_tier = "free" →
      findByUid Billing.user_id u.id bs = some b →
      check_usage_quota u bs =
        (if 10000 ≤ b.tokens_used_this_period then (false, some (quotaMessage 10000))
         else (true, none))) ∧
    (∀ (u : User) (bs : List Billing),
      (get_api_key u).isSome → check_usage_quota u bs = (true, none)) ∧
    check_usage_quota ⟨1, none, "free"⟩
        [⟨1, none, none, "inactive", none, none, 9999, 0⟩] = (true, none) ∧
    check_usage_quota ⟨1, none, "free"⟩
        [⟨1, none, none, "inactive", none, none, 10000, 0⟩] =
      (false, some ("You have exceeded your monthly token quota of 10,000." ++
        " Please upgrade your plan or add your own API key.")) ∧
    check_usage_quota ⟨2, some "sk-private-credential", "free"⟩
        [⟨2, none, none, "inactive", none, none, 1000000, 0⟩] = (true, none) := by
  refine ⟨?_, ?_, ?_, ?_, ?_⟩
  · intro u bs b hkey htier hfind
    unfold check_usage_quota get_api_key
    rw [hkey, hfind, htier]
    rfl
  · intro u bs hkey
    unfold check_usage_quota
    rw [hkey]
    rfl
  · rfl
  · rfl
  · rfl

/-- Witness for C2 at a concrete account: free tier, no credential,
10000 tokens used. -/
theorem c2_witness :
    check_usage_quota ⟨3, none, "free"⟩
        [⟨3, none, none, "inactive", none, none, 10000, 0⟩] =
      (if 10000 ≤ (10000 : Nat) then (false, some (quotaMessage 10000))
       else (true, none)) :=
  c2_quota_gate.1 ⟨3, none, "free"⟩
    [⟨3, none, none, "inactive", none, none, 10000, 0⟩]
    ⟨3, none, none, "inactive", none, none, 10000, 0⟩ rfl rfl rfl

/-- Claim C3 counterexample: an enterprise account with no private credential
and no billing row is denied with the internal-error message, not allowed —
the billing lookup runs before the enterprise-tier test. -/
theorem c3_counterexample :
    check_usage_quota ⟨7, none, "enterprise"⟩ [] =
      (false, some "Billing information not found") := rfl

/-- Claim C3 (amended): an enterprise account is allowed regardless of
`tokens_used_this_period` whenever its billing row exists, but the billing
lookup precedes the tier test, so an enterprise account without a billing row
(and without a private credential) is denied with the internal-error
message. -/
theorem c3_amended :
    (∀ (u : User) (bs : List Billing) (b : Billing),
      u.subscription_tier = "enterprise" →
      findByUid Billing.user_id u.id bs = some b →
      check_usage_quota u bs = (true, none)) ∧
    (∀ (u : User) (bs : List Billing),
      u.encrypted_api_key = none → u.subscription_tier = "enterprise" →
      findByUid Billing.user_id u.id bs = none →
      check_usage_quota u bs = (false, some "Billing information not found")) := by
  constructor
  · intro u bs b htier hfind
    unfold check_usage_quota
    by_cases hkey : (get_api_key u).isSome
    · rw [if_pos hkey]
    · rw [if_neg hkey, hfind, htier]
      rfl
  · intro u bs hkey htier hfind
    unfold check_usage_quota get_api_key
    rw [hkey, hfind]
    rfl

/-- Witness for C3 (amended) at a concrete enterprise account with a billing
row holding one million tokens used. -/
theorem c3_witness :
    check_usage_quota ⟨4, none, "enterprise"⟩
        [⟨4, none, none, "active", none, none, 1000000, 0⟩] = (true, none) :=
  c3_amended.1 ⟨4, none, "enterprise"⟩
    [⟨4, none, none, "active", none, none, 1000000, 0⟩]
    ⟨4, none, none, "active", none, none, 1000000, 0⟩ rfl rfl

/-- Updating the first matching row keeps it the first match, provided the
update does not change the key. -/
theorem findByUid_updateByUid {α : Type} (key : α → Nat) (uid : Nat) (f : α → α)
    (xs : List α) (x : α) (hf : key (f x) = key x)
    (hx : findByUid key uid xs = some x) :
    findByUid key uid (updateByUid key uid f xs) = some (f x) := by
  induction xs with
  | nil => simp [findByUid] at hx
  | cons y ys ih =>
    by_cases h : key y = uid
    · simp only [findByUid, if_pos h] at hx
      injection hx with hx
      subst hx
      simp only [updateByUid, if_pos h, findByUid, if_pos (hf.trans h)]
    · simp only [findByUid, if_neg h] at hx
      simp only [updateByUid, if_neg h, findByUid, if_neg h]
      exact ih hx

/-- Updating a row that is not present changes nothing. -/
theorem updateByUid_not_found {α : Type} (key : α → Nat) (uid : Nat) (f : α → α)
    (xs : List α) (hx : findByUid key uid xs = none) :
    updateByUid key uid f xs = xs := by
  induction xs with
  | nil => rfl
  | cons y ys ih =>
    by_cases h : key y = uid
    · simp only [findByUid, if_pos h] at hx
      exact Option.noConfusion hx
    · simp only [findByUid, if_neg h] at hx
      simp only [updateByUid, if_neg h, ih hx]

/-- The fallible operations inside `track_usage`'s `try` block
(src/billing.py lines 83-106): the cost computation, the session insert of
the usage row, the billing-row query, and the final commit. -/
inductive TrackStep
  | calcCost
  | insertUsage
  | queryBilling
  | commit

/-- From `src/billing.py` (`track_usage`): compute the cost, insert an
`APIUsage` row, and, when the account has a billing row, add
`tokens_input + tokens_output` to `tokens_used_this_period` and touch
`updated_at`; then commit.  All session changes are pending until the commit,
so an exception raised at any of the four fallible steps takes the `except`
path: `db.session.rollback()` discards every pending change and the function
returns `None`; the committed database is returned unchanged.  `failAt`
injects such an exception. -/
def track_usage (st : DBState) (user_id tokens_input tokens_output : Nat)
    (model endpoint : String) (now : Nat) (failAt : Option TrackStep) :
    DBState × Option APIUsage :=
  match failAt with
  | some _ => (st, none)
  | none =>
    let cost := calculate_cost tokens_input tokens_output model
    let total_tokens := tokens_input + tokens_output
    let usage : APIUsage :=
      { user_id := user_id, tokens_used := total_tokens, tokens_input := tokens_input,
        tokens_output := tokens_output, cost := cost, model := model, endpoint := endpoint }
    let billings := updateByUid Billing.user_id user_id
      (fun b => { b with
        tokens_used_this_period := b.tokens_used_this_period + total_tokens,
        updated_at := now }) st.billings
    ({ st with usage_rows := st.usage_rows ++ [usage], billings := billings }, some usage)

/-- A database with one free-tier account and no billing row. -/
def c1state : DBState :=
  { users := [⟨1, none, "free"⟩], billings := [], usage_rows := [] }

/-- Claim C1 counterexample: recording usage for an account with no billing
row does not fail — it returns the created usage record (not an error) and
inserts one `APIUsage` row. -/
theorem c1_counterexample :
    (track_usage c1state 1 100 50 "claude-3-5-sonnet-20241022" "/api/claude" 0
        none).2.isSome = true ∧
    (track_usage c1state 1 100 50 "claude-3-5-sonnet-20241022" "/api/claude" 0
        none).1.usage_rows.length = 1 :=
  ⟨rfl, rfl⟩

/-- Claim C1 (amended): when the account has no billing row, `track_usage`
does not fail and is not surfaced as an error: the usage event is still
inserted and returned, and no counter exists to be incremented — the billing
table is left unchanged. -/
theorem c1_amended (st : DBState) (uid ti tout : Nat) (m e : String) (now : Nat)
    (h : findByUid Billing.user_id uid st.billings = none) :
    track_usage st uid ti tout m e now none =
      ({ st with usage_rows := st.usage_rows ++
          [⟨uid, ti + tout, ti, tout, calculate_cost ti tout m, m, e⟩] },
        some ⟨uid, ti + tout, ti, tout, calculate_cost ti tout m, m, e⟩) := by
  simp only [track_usage]
  rw [updateByUid_not_found Billing.user_id uid _ st.billings h]

/-- Witness for C1 (amended) at the concrete no-billing-row database. -/
theorem c1_witness :
    track_usage c1state 1 100 50 "claude-3-5-sonnet-20241022" "/api/claude" 0 none =
      ({ c1state with usage_rows := c1state.usage_rows ++
          [⟨1, 150, 100, 50,
            calculate_cost 100 50 "claude-3-5-sonnet-20241022",
            "claude-3-5-sonnet-20241022", "/api/claude"⟩] },
        some ⟨1, 150, 100, 50,
          calculate_cost 100 50 "claude-3-5-sonnet-20241022",
          "claude-3-5-sonnet-20241022", "/api/claude"⟩) :=
  c1_amended c1state 1 100 50 "claude-3-5-sonnet-20241022" "/api/claude" 0 rfl

/-- Claim C9: an exception at any fallible step inside `track_usage` rolls
back every pending change — no usage row and no counter increment survive —
and the call returns `None` instead of propagating the exception. -/
theorem c9_rollback (st : DBState) (uid ti tout : Nat) (m e : String)
    (now : Nat) (s : TrackStep) :
    track_usage st uid ti tout m e now (some s) = (st, none) := rfl

/-- Claim C10: every usage event created by a successful `track_usage` has
`tokens_used = tokens_input + tokens_output` and
`cost = calculate_cost tokens_input tokens_output model`, it is appended to
the usage table, and when a billing row exists its counter grows by exactly
`tokens_input + tokens_output`. -/
theorem c10_usage_invariants (st : DBState) (uid ti tout : Nat)
    (m e : String) (now : Nat) :
    (track_usage st uid ti tout m e now none).2 =
      some ⟨uid, ti + tout, ti, tout, calculate_cost ti tout m, m, e⟩ ∧
    (track_usage st uid ti tout m e now none).1.usage_rows =
      st.usage_rows ++ [⟨uid, ti + tout, ti, tout, calculate_cost ti tout m, m, e⟩] ∧
    (∀ b : Billing, findByUid Billing.user_id uid st.billings = some b →
      findByUid Billing.user_id uid (track_usage st uid ti tout m e now none).1.billings =
        some { b with tokens_used_this_period := b.tokens_used_this_period + (ti + tout),
                      updated_at := now }) := by
  refine ⟨rfl, rfl, ?_⟩
  intro b hb
  exact findByUid_updateByUid Billing.user_id uid _ st.billings b rfl hb

/-- Witness for C10 at a concrete database holding a billing row with 7
tokens already used. -/
theorem c10_witness :
    findByUid Billing.user_id 5
        (track_usage ⟨[⟨5, none, "pro"⟩], [⟨5, none, none, "active", none, none, 7, 0⟩], []⟩
          5 100 50 "claude-3-5-sonnet-20241022" "/api/claude" 99 none).1.billings =
      some ⟨5, none, none, "active", none, none, 7 + (100 + 50), 99⟩ :=
  (c10_usage_invariants
      ⟨[⟨5, none, "pro"⟩], [⟨5, none, none, "active", none, none, 7, 0⟩], []⟩
      5 100 50 "claude-3-5-sonnet-20241022" "/api/claude" 99).2.2
    ⟨5, none, none, "active", none, none, 7, 0⟩ rfl

/-- From `src/billing.py` (`handle_checkout_completed`): on the
`checkout.session.completed` webhook, look up the billing row and the user;
when both exist, store the subscription id, set status `active`, restart the
billing period at the current time (30 days long), reset the period token
counter to zero, and set the user's tier to the purchased tier. -/
def handle_checkout_completed (st : DBState) (user_id : Nat)
    (tier subscription_id : String) (now : Nat) : DBState :=
  match findByUid Billing.user_id user_id st.billings,
        findByUid User.id user_id st.users with
  | some _, some _ =>
    { st with
      billings := updateByUid Billing.user_id user_id (fun b =>
        { b with
          stripe_subscription_id := some subscription_id,
          subscription_status := "active",
          current_period_start := some now,
          current_period_end := some (now + 30 * 86400),
          tokens_used_this_period := 0,
          updated_at := now }) st.billings,
      users := updateByUid User.id user_id (fun u =>
        { u with subscription_tier := tier }) st.users }
  | _, _ => st

/-- The fields of the account's billing row and user row that claim C5
observes: subscription status, period token counter, stored subscription id,
and the account tier. -/
def checkoutObs (st : DBState) (uid : Nat) :
    Option (String × Nat × Option String) × Option String :=
  ((findByUid Billing.user_id uid st.billings).map
      (fun b => (b.subscription_status, b.tokens_used_this_period,
        b.stripe_subscription_id)),
   (findByUid User.id uid st.users).map (fun u => u.subscription_tier))

/-- When the billing row and the user exist, the checkout transition rewrites
the state with the updated rows. -/
theorem handle_checkout_completed_of_found (st : DBState) (uid : Nat)
    (tier subId : String) (n : Nat) (b : Billing) (u : User)
    (hb : findByUid Billing.user_id uid st.billings = some b)
    (hu : findByUid User.id uid st.users = some u) :
    handle_checkout_completed st uid tier subId n =
      { st with
        billings := updateByUid Billing.user_id uid (fun bb =>
          { bb with
            stripe_subscription_id := some subId,
            subscription_status := "active",
            current_period_start := some n,
            current_period_end := some (n + 30 * 86400),
            tokens_used_this_period := 0,
            updated_at := n }) st.billings,
        users := updateByUid User.id uid (fun v =>
          { v with subscription_tier := tier }) st.users } := by
  unfold handle_checkout_completed
  rw [hb, hu]

/-- After the checkout transition, the account's rows are still found, now
updated. -/
theorem checkout_found_after (st : DBState) (uid : Nat)
    (tier subId : String) (n : Nat) (b : Billing) (u : User)
    (hb : findByUid Billing.user_id uid st.billings = some b)
    (hu : findByUid User.id uid st.users = some u) :
    findByUid Billing.user_id uid (handle_checkout_completed st uid tier subId n).billings =
      some { b with
        stripe_subscription_id := some subId,
        subscription_status := "active",
        current_period_start := some n,
        current_period_end := some (n + 30 * 86400),
        tokens_used_this_period := 0,
        updated_at := n } ∧
    findByUid User.id uid (handle_checkout_completed st uid tier subId n).users =
      some { u with subscription_tier := tier } := by
  rw [handle_checkout_completed_of_found st uid tier subId n b u hb hu]
  exact ⟨findByUid_updateByUid Billing.user_id uid _ st.billings b rfl hb,
    findByUid_updateByUid User.id uid _ st.users u rfl hu⟩

/-- After the checkout transition, the observed fields are exactly
status `active`, zero tokens used, the stored subscription id, and the
purchased tier. -/
theorem checkout_obs_of_found (st : DBState) (uid : Nat)
    (tier subId : String) (n : Nat) (b : Billing) (u : User)
    (hb : findByUid Billing.user_id uid st.billings = some b)
    (hu : findByUid User.id uid st.users = some u) :
    checkoutObs (handle_checkout_completed st uid tier subId n) uid =
      (some ("active", 0, some subId), some tier) := by
  obtain ⟨e1, e2⟩ := checkout_found_after st uid tier subId n b u hb hu
  unfold checkoutObs
  rw [e1, e2]
  rfl

/-- Claim C5: applying the checkout-completed transition twice for the same
(account, tier, subscription id) leaves the billing record's status, period
token counter and stored subscription id, and the account tier, identical to
applying it once: status `active`, zero tokens used, the purchased tier, the
same subscription id. -/
theorem c5_checkout_idempotent (st : DBState) (uid : Nat)
    (tier subId : String) (n1 n2 : Nat) (b : Billing) (u : User)
    (hb : findByUid Billing.user_id uid st.billings = some b)
    (hu : findByUid User.id uid st.users = some u) :
    checkoutObs (handle_checkout_completed
        (handle_checkout_completed st uid tier subId n1) uid tier subId n2) uid =
      checkoutObs (handle_checkout_completed st uid tier subId n1) uid ∧
    checkoutObs (handle_checkout_completed st uid tier subId n1) uid =
      (some ("active", 0, some subId), some tier) := by
  obtain ⟨e1, e2⟩ := checkout_found_after st uid tier subId n1 b u hb hu
  have o1 := checkout_obs_of_found st uid tier subId n1 b u hb hu
  have o2 := checkout_obs_of_found (handle_checkout_completed st uid tier subId n1)
    uid tier subId n2 _ _ e1 e2
  exact ⟨o2.trans o1.symm, o1⟩

/-- Witness for C5 at a concrete account (id 6, tier pro, subscription
sub-S) applied at times 1000 and 2000. -/
theorem c5_witness :
    checkoutObs (handle_checkout_completed
        (handle_checkout_completed
          ⟨[⟨6, none, "free"⟩], [⟨6, some "cus-6", none, "inactive", none, none, 42, 0⟩], []⟩
          6 "pro" "sub-S" 1000) 6 "pro" "sub-S" 2000) 6 =
      checkoutObs (handle_checkout_completed
        ⟨[⟨6, none, "free"⟩], [⟨6, some "cus-6", none, "inactive", none, none, 42, 0⟩], []⟩
        6 "pro" "sub-S" 1000) 6 ∧
    checkoutObs (handle_checkout_completed
        ⟨[⟨6, none, "free"⟩], [⟨6, some "cus-6", none, "inactive", none, none, 42, 0⟩], []⟩
        6 "pro" "sub-S" 1000) 6 =
      (some ("active", 0, some "sub-S"), some "pro") :=
  c5_checkout_idempotent
    ⟨[⟨6, none, "free"⟩], [⟨6, some "cus-6", none, "inactive", none, none, 42, 0⟩], []⟩
    6 "pro" "sub-S" 1000 2000
    ⟨6, some "cus-6", none, "inactive", none, none, 42, 0⟩
    ⟨6, none, "free"⟩ rfl rfl

/-- State shared by concurrent `track_usage` calls on one account:
the billing row's period counter, each call's session-local snapshot of that
counter, and the number of committed `APIUsage` rows. -/
structure ConcState where
  counter : Nat
  locals : List (Option Nat)
  rows : Nat
deriving DecidableEq

/-- The two database round-trips of one `track_usage` call that touch the
shared counter (src/billing.py lines 101-106): the query loads the row into
the call's session (a snapshot read of the counter), and the commit writes
back `snapshot + total_tokens` computed in Python by `+=` — not an atomic
SQL increment and under no row lock, so the written value is based on
whatever the call read earlier. -/
inductive LedgerStep
  | readCounter (i : Nat)
  | commitWrite (i : Nat)

/-- One interleaved step: call `i` either snapshots the shared counter or
commits, writing its snapshot plus `amount` and inserting its usage row. -/
def concStep (amount : Nat) (s : ConcState) : LedgerStep → ConcState
  | LedgerStep.readCounter i => { s with locals := s.locals.set i (some s.counter) }
  | LedgerStep.commitWrite i =>
    match s.locals.get? i with
    | some (some v) => { s with counter := v + amount, rows := s.rows + 1 }
    | _ => s

/-- Run an interleaving of the calls' steps. -/
def runSchedule (amount : Nat) (s : ConcState) (steps : List LedgerStep) : ConcState :=
  steps.foldl (concStep amount) s

/-- Claim C6 evaluation: two concurrent 100-token `track_usage` calls whose
snapshot reads both precede the commits leave the counter at 100 — one
increment is lost — while both usage rows are inserted; the fully serialized
interleaving leaves 200.  The code's read-modify-write admits the first
schedule, so the increments do not serialize as the claim requires. -/
theorem c6_lost_update :
    runSchedule 100 ⟨0, [none, none], 0⟩
        [LedgerStep.readCounter 0, LedgerStep.readCounter 1,
         LedgerStep.commitWrite 0, LedgerStep.commitWrite 1] =
      ⟨100, [some 0, some 0], 2⟩ ∧
    runSchedule 100 ⟨0, [none, none], 0⟩
        [LedgerStep.readCounter 0, LedgerStep.commitWrite 0,
         LedgerStep.readCounter 1, LedgerStep.commitWrite 1] =
      ⟨200, [some 0, some 100], 2⟩ :=
  ⟨rfl, rfl⟩

/-- Server-sent events emitted by the streaming generator of
`handle_claude_stream_request` (src/proxy.py lines 316-363). -/
inductive SSEEvent
  | chunk (text : String)
  | done
  | error (msg : String)
deriving DecidableEq

/-- The upstream stream as the generator consumes it: either it completes,
yielding its text chunks and then a final message that may carry a usage
summary, or it raises after yielding some chunks and before the summary. -/
inductive StreamOutcome
  | success (chunks : List String) (usage : Option (Nat × Nat))
  | failure (chunks : List String)

/-- From `src/proxy.py` (`handle_claude_stream_request.generate`): forward
each chunk; on completion read the final usage summary (tokens stay 0 when
absent), emit the DONE terminal event, then — only for an authenticated
non-BYOK caller — call `track_usage` exactly once with the final counts.
On an exception before that point, emit a single terminal error event and
skip the ledger call entirely.  Returns the emitted events and the list of
`track_usage` calls made (as (tokens_input, tokens_output) pairs). -/
def generate (user_id : Option Nat) (is_byok : Bool) (outcome : StreamOutcome)
    (err : String) : List SSEEvent × List (Nat × Nat) :=
  match outcome with
  | StreamOutcome.success chunks usage =>
    let tokens := match usage with
      | some u => u
      | none => (0, 0)
    let events := chunks.map SSEEvent.chunk ++ [SSEEvent.done]
    let records := if user_id.isSome && !is_byok then [tokens] else []
    (events, records)
  | StreamOutcome.failure chunks =>
    (chunks.map SSEEvent.chunk ++ [SSEEvent.error err], [])

/-- Claim C7: a stream failing before the final summary — after any number
of forwarded chunks — records no usage at all and ends with a terminal error
event; a completed billable stream records usage exactly once with the final
counts. -/
theorem c7_stream_usage :
    (∀ (uid : Option Nat) (byok : Bool) (chunks : List String) (err : String),
      (generate uid byok (StreamOutcome.failure chunks) err).2 = [] ∧
      (generate uid byok (StreamOutcome.failure chunks) err).1 =
        chunks.map SSEEvent.chunk ++ [SSEEvent.error err] ∧
      (generate uid byok (StreamOutcome.failure chunks) err).1.getLast? =
        some (SSEEvent.error err)) ∧
    (∀ (i ti tout : Nat) (chunks : List String) (err : String),
      (generate (some i) false (StreamOutcome.success chunks (some (ti, tout))) err).2 =
        [(ti, tout)]) := by
  constructor
  · intro uid byok chunks err
    refine ⟨rfl, rfl, ?_⟩
    simp [generate]
  · intro i ti tout chunks err
    rfl

/-- Witness for C7: a stream that fails after three chunks records nothing
and terminates with the error event. -/
theorem c7_witness :
    (generate (some 1) false
        (StreamOutcome.failure ["a", "b", "c"]) "upstream error").2 = [] ∧
    (generate (some 1) false
        (StreamOutcome.failure ["a", "b", "c"]) "upstream error").1 =
      ["a", "b", "c"].map SSEEvent.chunk ++ [SSEEvent.error "upstream error"] ∧
    (generate (some 1) false
        (StreamOutcome.failure ["a", "b", "c"]) "upstream error").1.getLast? =
      some (SSEEvent.error "upstream error") :=
  c7_stream_usage.1 (some 1) false ["a", "b", "c"] "upstream error"

/-- From `src/rate_limiter.py` (`exempt_from_rate_limit`): authenticated
enterprise users and users with their own credential are meant to be exempt
from rate limiting. -/
def exempt_from_rate_limit (is_authenticated : Bool) (u : User) : Bool :=
  if is_authenticated then
    if u.subscription_tier = "enterprise" then true
    else if (get_api_key u).isSome then true
    else false
  else false

/-- Modelled from the spec: the fixed-window per-minute counter of the
third-party limiter behind `limiter.limit` — within one window the first
`limit` requests of an identity are allowed and every further one is denied
(spec section 4.5: denied starting at the (ceiling+1)-th request).  Returns
the allow/deny decision of each of the next `n` requests given the count
already consumed. -/
def windowDecisions (limit : Nat) : Nat → Nat → List Bool
  | 0, _ => []
  | n + 1, count => decide (count < limit) :: windowDecisions limit n (count + 1)

/-- From `src/proxy.py` (lines 187-188 and 276-277): both AI endpoints are
decorated with `limiter.limit("50 per minute")` unconditionally — neither
`exempt_from_rate_limit` nor `ai_request_limit` is applied to them — so the
caller's tier and credential are ignored by the limiter.  Decisions for the
caller's first `n` requests within one fresh window. -/
def handle_claude_request_decisions (u : User) (n : Nat) : List Bool :=
  windowDecisions 50 n 0

/-- Claim C8 evaluation: an enterprise-tier caller — whom
`exempt_from_rate_limit` would exempt — is nonetheless denied by the AI
endpoint's limiter starting at its 51st request in one window, exactly like
a free-tier caller; only the first 50 requests pass. -/
theorem c8_no_endpoint_exemption :
    exempt_from_rate_limit true ⟨9, none, "enterprise"⟩ = true ∧
    (handle_claude_request_decisions ⟨9, none, "enterprise"⟩ 51).getLast? = some false ∧
    (handle_claude_request_decisions ⟨9, none, "enterprise"⟩ 51).count true = 50 ∧
    (handle_claude_request_decisions ⟨8, none, "free"⟩ 51).getLast? = some false ∧
    (handle_claude_request_decisions ⟨8, none, "free"⟩ 51).count true = 50 := by
  refine ⟨rfl, ?_, ?_, ?_, ?_⟩ <;> decide

/-- Witness for C4 at the concrete token counts (1000, 1000). -/
theorem c4_witness :
    calculate_cost 1000 1000 "claude-3-5-sonnet-20241022" = costSpec 1000 1000 :=
  c4_cost_formula.1 1000 1000 "claude-3-5-sonnet-20241022"

/-- Witness for C9: a commit-time failure at a concrete database leaves it
unchanged and yields no usage record. -/
theorem c9_witness :
    track_usage c1state 1 100 50 "claude-3-5-sonnet-20241022" "/api/claude" 0
        (some TrackStep.commit) = (c1state, none) :=
  c9_rollback c1state 1 100 50 "claude-3-5-sonnet-20241022" "/api/claude" 0
    TrackStep.commit

end Cursive
